import Mathlib

/-!
Shallow embedding of the `openat_secure` pathname resolver
(`src/lib.rs`, `src/util.rs`, `src/openat2.rs`).

Paths are modelled as byte lists (`List Nat`), parsed into components with
the semantics of Rust's `std::path::Path::components()` on Unix.  The
syscall layer (`openat`, `readlinkat`, `fstat`, `openat2`, `try_clone`,
`unlinkat`, ...) is modelled by a deterministic oracle record `Env`; file
descriptors and directory handles are `Nat`.  The resolver's `while` loop
becomes a fuel-indexed recursion (`walkLoop`); `none` means the fuel ran
out, which never happens for the concrete inputs used below.
-/

namespace OpenatSecure

/-- Errno values (Linux numbering, plus NetBSD's `EFTYPE`); only their
distinctness matters for the development. -/
def ENOENT : Nat := 2

def E2BIG : Nat := 7

def EAGAIN : Nat := 11

def EBUSY : Nat := 16

def EEXIST : Nat := 17

def EXDEV : Nat := 18

def ENOTDIR : Nat := 20

def EISDIR : Nat := 21

def EINVAL : Nat := 22

def EMLINK : Nat := 31

def ENOSYS : Nat := 38

def ENOTEMPTY : Nat := 39

def ELOOP : Nat := 40

def EFTYPE : Nat := 79

def ENOTSUP : Nat := 95

/-- Open-flag bits (Linux numbering). -/
def O_RDONLY : Nat := 0

def O_WRONLY : Nat := 1

def O_RDWR : Nat := 2

def O_CREAT : Nat := 64

def O_EXCL : Nat := 128

def O_TRUNC : Nat := 512

def O_APPEND : Nat := 1024

def O_DIRECTORY : Nat := 65536

def O_NOFOLLOW : Nat := 131072

def O_CLOEXEC : Nat := 524288

def O_PATH : Nat := 2097152

/-- The operating systems distinguished by `#[cfg(target_os = ...)]` in the
source: Linux (fast path, `O_PATH`), FreeBSD (`EMLINK` normalization),
NetBSD (`EFTYPE` normalization), anything else. -/
inductive OS where
  | linux
  | freebsd
  | netbsd
  | other
deriving DecidableEq, Repr

/-- `BASE_DIR_FLAGS` from `lib.rs`: `O_PATH | O_DIRECTORY` on Linux,
`O_DIRECTORY` elsewhere. -/
def BASE_DIR_FLAGS : OS → Nat
  | .linux => O_PATH ||| O_DIRECTORY
  | _ => O_DIRECTORY

/-- `constants.rs`: fallback when `sysconf(_SC_SYMLOOP_MAX)` is unavailable. -/
def DEFAULT_SYMLOOP_MAX : Nat := 40

/-- `u64::MAX`, the "any device" sentinel used when `NO_XDEV` is unset. -/
def U64_MAX : Nat := 2 ^ 64 - 1

/-- One parsed path component, mirroring `std::path::Component` on Unix
(`Prefix` is unreachable in this Unix-only crate). -/
inductive Comp where
  | rootDir
  | curDir
  | parentDir
  | normal (name : List Nat)
deriving DecidableEq, Repr

/-- Split a byte string at every `/` (byte 47), keeping empty segments. -/
def splitOnSlash : List Nat → List (List Nat)
  | [] => [[]]
  | b :: rest =>
    if b == 47 then [] :: splitOnSlash rest
    else
      match splitOnSlash rest with
      | [] => [[b]]
      | s :: ss => (b :: s) :: ss

/-- `Path::has_root()` on Unix: the byte string starts with `/`. -/
def hasRoot (p : List Nat) : Bool :=
  match p with
  | 47 :: _ => true
  | _ => false

/-- Rust's `include_cur_dir`: a relative path starting with a lone `.`
component keeps that leading `CurDir`; `.` elsewhere is dropped. -/
def includeCurDir (p : List Nat) : Bool :=
  match p with
  | [46] => true
  | 46 :: 47 :: _ => true
  | _ => false

/-- Classify one slash-separated segment the way the components iterator
does: empty and `.` segments are dropped, `..` is `ParentDir`. -/
def segComp (s : List Nat) : Option Comp :=
  if s = [] then none
  else if s = [46] then none
  else if s = [46, 46] then some .parentDir
  else some (.normal s)

/-- `Path::components()` on Unix: optional root, optional leading `CurDir`,
then the filtered segments. -/
def componentsOf (p : List Nat) : List Comp :=
  (if hasRoot p then [Comp.rootDir] else [])
    ++ (if includeCurDir p then [Comp.curDir] else [])
    ++ (splitOnSlash p).filterMap segComp

/-- `Path::file_name()`: the last component when it is `Normal`. -/
def file_name (p : List Nat) : Option (List Nat) :=
  match (componentsOf p).getLast? with
  | some (.normal n) => some n
  | _ => none

/-- `Path::ends_with("..")`: component-wise suffix comparison, i.e. the last
component is `ParentDir`. -/
def endsWithParent (p : List Nat) : Bool :=
  (componentsOf p).getLast? == some Comp.parentDir

/-- The components iterator's `trim_left`: drop leading separators and
filtered (`""`/`.`) segments.  Applied to the remainder of
`strip_prefix("/")`, where the path had a root, so a leading `.` is always
filtered. -/
def lsFilt : List Nat → List Nat
  | [] => []
  | 47 :: rest => lsFilt rest
  | [46] => []
  | 46 :: 47 :: rest => lsFilt (47 :: rest)
  | bs => bs

/-- `Path::strip_prefix("/")` on an absolute path: consume the root, then
`trim_left` the remainder (the argument here is the path without its first
byte). -/
def stripRootBytes (p : List Nat) : List Nat :=
  lsFilt p

/-- The components iterator's `trim_right` on a relative path, operating on
the REVERSED byte list: drop trailing separators and `.` segments, but keep
a lone leading `.` (the `CurDir` component). -/
def rTrim : List Nat → List Nat
  | [] => []
  | 47 :: rest => rTrim rest
  | [46] => [46]
  | 46 :: 47 :: rest => rTrim (47 :: rest)
  | bs => bs

/-- Drop the final (non-filtered) segment plus one preceding separator from
a REVERSED byte list, as `parse_next_component_back` does. -/
def dropSeg (rbs : List Nat) : List Nat :=
  match rbs.dropWhile (fun b => !(b == 47)) with
  | 47 :: rest => rest
  | r => r

/-- `Path::parent()` restricted to the use in `prepare_inner_operation`:
the path is relative, non-empty, and its last component is `Normal`; the
parent is the byte slice before that component, right-trimmed. -/
def parentBytes (p : List Nat) : List Nat :=
  (rTrim (dropSeg (rTrim p.reverse))).reverse

/-- The `while bytes.ends_with(b"//")` loop of `util::path_basename`,
on the REVERSED byte list: collapse a trailing run of slashes to one. -/
def rDropDupSlash : List Nat → List Nat
  | 47 :: 47 :: rest => rDropDupSlash (47 :: rest)
  | bs => bs

/-- `util::path_basename`: like `file_name` but keeping one trailing slash;
`None` for `/` and for paths ending in `..`. -/
def path_basename (p : List Nat) : Option (List Nat) :=
  if componentsOf p = [Comp.rootDir] ∨ (componentsOf p).getLast? = some Comp.parentDir then
    none
  else
    let bytes := (rDropDupSlash p.reverse).reverse
    let start :=
      match (bytes.take (bytes.length - 1)).reverse.findIdx? (fun b => b == 47) with
      | some j => bytes.length - 1 - j
      | none => 0
    some (bytes.drop start)

/-- The five `LookupFlags` bits (bit values 1, 2, 4, 8, 16 in the source),
modelled as a record of booleans since the library only ever queries
`contains` on the individual flags. -/
structure LookupFlags where
  no_symlinks : Bool := false
  in_root : Bool := false
  allow_parent_components : Bool := false
  no_xdev : Bool := false
  xdev_bind_ok : Bool := false
deriving DecidableEq, Repr

/-- An `io::Error`: either a raw OS errno, or the `NulError` produced by
`CString::new` on a byte string containing `0` (whose `raw_os_error()` is
`None`). -/
inductive IOErr where
  | os (errno : Nat)
  | nul
deriving DecidableEq, Repr

/-- `openat2.rs` resolve-flag bits. -/
def RESOLVE_NO_XDEV : Nat := 1

def RESOLVE_NO_MAGICLINKS : Nat := 2

def RESOLVE_NO_SYMLINKS : Nat := 4

def RESOLVE_BENEATH : Nat := 8

def RESOLVE_IN_ROOT : Nat := 16

/-- The `open_how` structure handed to `openat2` (before the raw
conversion that forces `O_CLOEXEC`, which lives below the oracle). -/
structure OpenHow where
  flags : Nat
  mode : Option Nat
  resolve_flags : Nat
deriving DecidableEq, Repr

/-- The sequence of `resolve_flags` inserts in `open_file_secure`:
always `NO_MAGICLINKS`; `NO_SYMLINKS` iff the lookup flag; `NO_XDEV` iff
the lookup flag; `IN_ROOT` if `IN_ROOT` else `BENEATH`. -/
def computeResolveFlags (lf : LookupFlags) : Nat :=
  let r := RESOLVE_NO_MAGICLINKS
  let r := if lf.no_symlinks then r ||| RESOLVE_NO_SYMLINKS else r
  let r := if lf.no_xdev then r ||| RESOLVE_NO_XDEV else r
  if lf.in_root then r ||| RESOLVE_IN_ROOT else r ||| RESOLVE_BENEATH

/-- Deterministic oracle for the OS layer.  Directory handles and file
descriptors are `Nat`; the base directory is `rootFd`.  Each field models
one primitive used by the library; `Except Nat` carries a raw errno. -/
structure Env where
  rootFd : Nat
  /-- `root_dir.self_metadata()?.stat().st_dev` -/
  selfDev : Except Nat Nat
  /-- `util::get_symloop_max()` -/
  symloopMax : Option Nat
  /-- `openat(dirfd, fname, flags, mode)` returning a new fd -/
  openat : Nat → List Nat → Nat → Nat → Except Nat Nat
  /-- `file.metadata()?.dev()` of an open fd -/
  fdDev : Nat → Except Nat Nat
  /-- `Dir::read_link(dirfd, fname)` returning the target bytes -/
  read_link : Nat → List Nat → Except Nat (List Nat)
  /-- `root_dir.try_clone()` returning a duplicate fd of the base -/
  tryClone : Except Nat Nat
  /-- the raw `openat2` syscall keyed on path bytes and `open_how` -/
  openat2Sys : List Nat → OpenHow → Except Nat Nat
  /-- `Dir::remove_dir(dirfd, fname)` -/
  removeDirAt : Nat → List Nat → Except Nat Unit
  /-- `Dir::create_dir(dirfd, fname, mode)` -/
  createDirAt : Nat → List Nat → Nat → Except Nat Unit
  /-- `Dir::remove_file(dirfd, fname)` -/
  removeFileAt : Nat → List Nat → Except Nat Unit
  /-- `Dir::symlink(dirfd, fname, value)` -/
  symlinkAt : Nat → List Nat → List Nat → Except Nat Unit
  /-- `openat::rename(old_dirfd, old, new_dirfd, new)` -/
  renameAt : Nat → List Nat → Nat → List Nat → Except Nat Unit

/-- The platform-conditional errno normalization before the symlink probe:
FreeBSD maps `EMLINK` to `ELOOP`, NetBSD maps `EFTYPE` to `ELOOP`. -/
def normalize_errno (os : OS) (e : Nat) : Nat :=
  match os with
  | .freebsd => if e = EMLINK then ELOOP else e
  | .netbsd => if e = EFTYPE then ELOOP else e
  | _ => e

/-- `map_component_cstring`: `CurDir` dropped, `RootDir` becomes the token
`"/"`, `ParentDir` becomes `".."`, `Normal` keeps its bytes unless they
contain a NUL (then `CString::new` fails). -/
def map_component_cstring : Comp → Except IOErr (Option (List Nat))
  | .curDir => .ok none
  | .rootDir => .ok (some [47])
  | .parentDir => .ok (some [46, 46])
  | .normal f => if 0 ∈ f then .error .nul else .ok (some f)

/-- Map a component list to the token queue, failing at the first NUL. -/
def map_components : List Comp → Except IOErr (List (List Nat))
  | [] => .ok []
  | c :: rest =>
    match map_component_cstring c with
    | .error e => .error e
    | .ok none => map_components rest
    | .ok (some f) =>
      match map_components rest with
      | .error e => .error e
      | .ok q => .ok (f :: q)

/-- `n_symlinks_max`: 0 under `NO_SYMLINKS`, else
`get_symloop_max().unwrap_or(DEFAULT_SYMLOOP_MAX)`. -/
def symlink_limit (env : Env) (lf : LookupFlags) : Nat :=
  if lf.no_symlinks then 0 else env.symloopMax.getD DEFAULT_SYMLOOP_MAX

/-- The `while let Some(fname) = components.pop_front()` loop of
`open_file_secure` (`lib.rs` lines 633-777), as a fuel-indexed recursion.
Arguments after the fuel: the pending token queue, `curdir`
(`None` = the base directory), the `parents` stack (innermost first),
`n_symlinks_found`, and the current `final_flags`.  `none` = out of fuel. -/
def walkLoop (os : OS) (env : Env) (lf : LookupFlags) (mode rootdev nmax : Nat) :
    Nat → List (List Nat) → Option Nat → List (Option Nat) → Nat → Nat →
    Option (Except IOErr Nat)
  | 0, _, _, _, _, _ => none
  | _ + 1, [], curdir, _, _, _ =>
    match curdir with
    | some d => some (.ok d)
    | none =>
      match env.tryClone with
      | .ok fd => some (.ok fd)
      | .error e => some (.error (.os e))
  | fuel + 1, fname :: rest, curdir, parents, nfound, fflags =>
    if fname = [47] then
      if lf.in_root then
        walkLoop os env lf mode rootdev nmax fuel rest none [] nfound fflags
      else
        some (.error (.os EXDEV))
    else if fname = [46, 46] then
      if !lf.allow_parent_components then
        some (.error (.os EXDEV))
      else
        match parents with
        | newdir :: ps =>
          walkLoop os env lf mode rootdev nmax fuel rest newdir ps nfound fflags
        | [] =>
          if !lf.in_root then some (.error (.os EXDEV))
          else walkLoop os env lf mode rootdev nmax fuel rest curdir [] nfound fflags
    else
      let dirfd := curdir.getD env.rootFd
      let cur_flags := if rest.isEmpty then fflags else BASE_DIR_FLAGS os
      match env.openat dirfd fname (cur_flags ||| O_NOFOLLOW ||| O_CLOEXEC) mode with
      | .ok fd =>
        let cont : Option (Except IOErr Nat) :=
          if rest.isEmpty then some (.ok fd)
          else
            walkLoop os env lf mode rootdev nmax fuel rest (some fd)
              (if lf.allow_parent_components then curdir :: parents else parents)
              nfound fflags
        if lf.no_xdev then
          match env.fdDev fd with
          | .error e => some (.error (.os e))
          | .ok d => if d ≠ rootdev then some (.error (.os EXDEV)) else cont
        else cont
      | .error e =>
        let en := normalize_errno os e
        if en = ELOOP ∨ en = ENOTDIR then
          match env.read_link dirfd fname with
          | .ok target =>
            if nfound ≥ nmax then some (.error (.os ELOOP))
            else
              let fflags' :=
                if rest.isEmpty && (target.getLast? == some 47) then fflags ||| O_DIRECTORY
                else fflags
              match map_components (componentsOf target) with
              | .error err => some (.error err)
              | .ok tcomps =>
                walkLoop os env lf mode rootdev nmax fuel (tcomps ++ rest) curdir parents
                  (nfound + 1) fflags'
          | .error re =>
            if re = EINVAL then
              if en = ENOTDIR then some (.error (.os e))
              else some (.error (.os EAGAIN))
            else some (.error (.os re))
        else
          some (.error (.os e))

/-- The manual resolver (`open_file_secure` after the fast-path block):
capture `root_dev` once if `NO_XDEV`, fix the symlink limit, build the
token queue, run the loop from the base with an empty parent stack. -/
def manual_walk (os : OS) (env : Env) (path : List Nat) (lf : LookupFlags)
    (final_flags mode fuel : Nat) : Option (Except IOErr Nat) :=
  match (if lf.no_xdev then env.selfDev else .ok U64_MAX : Except Nat Nat) with
  | .error e => some (.error (.os e))
  | .ok rootdev =>
    match map_components (componentsOf path) with
    | .error e => some (.error e)
    | .ok queue =>
      walkLoop os env lf mode rootdev (symlink_limit env lf) fuel queue none [] 0 final_flags

/-- `openat2.rs::openat2`: `CString::new` on the whole path (fails on NUL),
then the raw syscall. -/
def openat2_call (env : Env) (path : List Nat) (how : OpenHow) : Except IOErr Nat :=
  if 0 ∈ path then .error .nul
  else
    match env.openat2Sys path how with
    | .ok fd => .ok fd
    | .error e => .error (.os e)

/-- `open_file_secure` (`lib.rs` lines 554-778): on Linux, unless `NO_XDEV`
and `XDEV_BIND_OK` are both set, pre-filter `..` when parents are not
allowed, try `openat2`, fall back to the manual walk on `ENOSYS`/`E2BIG`;
otherwise go straight to the manual walk. -/
def open_file_secure (os : OS) (env : Env) (path : List Nat) (lf : LookupFlags)
    (final_flags mode fuel : Nat) : Option (Except IOErr Nat) :=
  if os == OS.linux && !(lf.no_xdev && lf.xdev_bind_ok) then
    if !lf.allow_parent_components && decide (Comp.parentDir ∈ componentsOf path) then
      some (.error (.os EXDEV))
    else
      match openat2_call env path
          { flags := final_flags, mode := some mode,
            resolve_flags := computeResolveFlags lf } with
      | .ok fd => some (.ok fd)
      | .error (.os e) =>
        if e = ENOSYS ∨ e = E2BIG then manual_walk os env path lf final_flags mode fuel
        else some (.error (.os e))
      | .error .nul => some (.error .nul)
  else
    manual_walk os env path lf final_flags mode fuel

/-- The body of `prepare_inner_operation` after the absolute-path prefix
handling, on the (now relative, non-empty) byte path `p`. -/
def prepare_tail (os : OS) (env : Env) (p : List Nat) (lf : LookupFlags) (fuel : Nat) :
    Option (Except IOErr (Option Nat × Option (List Nat))) :=
  match file_name p with
  | some fname =>
    let parent := parentBytes p
    if parent.isEmpty then some (.ok (none, some fname))
    else
      match open_file_secure os env parent lf (BASE_DIR_FLAGS os) 0 fuel with
      | none => none
      | some (.error e) => some (.error e)
      | some (.ok fd) => some (.ok (some fd, some fname))
  | none =>
    if lf.allow_parent_components then
      match open_file_secure os env p lf (BASE_DIR_FLAGS os) 0 fuel with
      | none => none
      | some (.error e) => some (.error e)
      | some (.ok fd) => some (.ok (some fd, none))
    else
      some (.error (.os EXDEV))

/-- `prepare_inner_operation` (`lib.rs` lines 469-526): split a path into an
optional containing-directory handle and an optional final name. -/
def prepare_inner_operation (os : OS) (env : Env) (path : List Nat) (lf : LookupFlags)
    (fuel : Nat) : Option (Except IOErr (Option Nat × Option (List Nat))) :=
  if hasRoot path then
    if lf.in_root then
      let p := stripRootBytes path.tail
      if p.isEmpty then
        match env.tryClone with
        | .ok fd => some (.ok (some fd, none))
        | .error e => some (.error (.os e))
      else prepare_tail os env p lf fuel
    else some (.error (.os EXDEV))
  else
    if path.isEmpty then some (.error (.os ENOENT))
    else prepare_tail os env path lf fuel

/-- `Dir::sub_dir_secure`. -/
def sub_dir_secure (os : OS) (env : Env) (p : List Nat) (lf : LookupFlags) (fuel : Nat) :
    Option (Except IOErr Nat) :=
  open_file_secure os env p lf (BASE_DIR_FLAGS os) 0 fuel

/-- The trait method `Dir::open_file_secure` (read-only open). -/
def open_file_secure_rdonly (os : OS) (env : Env) (p : List Nat) (lf : LookupFlags)
    (fuel : Nat) : Option (Except IOErr Nat) :=
  open_file_secure os env p lf O_RDONLY 0 fuel

/-- `Dir::new_file_secure`. -/
def new_file_secure (os : OS) (env : Env) (p : List Nat) (mode : Nat) (lf : LookupFlags)
    (fuel : Nat) : Option (Except IOErr Nat) :=
  open_file_secure os env p lf (O_CREAT ||| O_EXCL ||| O_WRONLY) mode fuel

/-- `Dir::update_file_secure`. -/
def update_file_secure (os : OS) (env : Env) (p : List Nat) (mode : Nat) (lf : LookupFlags)
    (fuel : Nat) : Option (Except IOErr Nat) :=
  open_file_secure os env p lf (O_CREAT ||| O_RDWR) mode fuel

/-- `Dir::write_file_secure`. -/
def write_file_secure (os : OS) (env : Env) (p : List Nat) (mode : Nat) (lf : LookupFlags)
    (fuel : Nat) : Option (Except IOErr Nat) :=
  open_file_secure os env p lf (O_CREAT ||| O_WRONLY ||| O_TRUNC) mode fuel

/-- `Dir::append_file_secure`. -/
def append_file_secure (os : OS) (env : Env) (p : List Nat) (mode : Nat) (lf : LookupFlags)
    (fuel : Nat) : Option (Except IOErr Nat) :=
  open_file_secure os env p lf (O_CREAT ||| O_WRONLY ||| O_APPEND) mode fuel

/-- `Dir::create_dir_secure`. -/
def create_dir_secure (os : OS) (env : Env) (path : List Nat) (mode : Nat)
    (lf : LookupFlags) (fuel : Nat) : Option (Except IOErr Unit) :=
  match prepare_inner_operation os env path lf fuel with
  | none => none
  | some (.error e) => some (.error e)
  | some (.ok (subdir, some fname)) =>
    match env.createDirAt (subdir.getD env.rootFd) fname mode with
    | .ok _ => some (.ok ())
    | .error e => some (.error (.os e))
  | some (.ok (_, none)) => some (.error (.os EEXIST))

/-- `Dir::remove_dir_secure`, including its syntactic `EBUSY`/`ENOTEMPTY`
choice (`path == Path::new("/") || path == Path::new("..")`, a
component-wise comparison). -/
def remove_dir_secure (os : OS) (env : Env) (path : List Nat) (lf : LookupFlags)
    (fuel : Nat) : Option (Except IOErr Unit) :=
  match prepare_inner_operation os env path lf fuel with
  | none => none
  | some (.error e) => some (.error e)
  | some (.ok (subdir, some fname)) =>
    match env.removeDirAt (subdir.getD env.rootFd) fname with
    | .ok _ => some (.ok ())
    | .error e => some (.error (.os e))
  | some (.ok (_, none)) =>
    some (.error (.os
      (if componentsOf path = componentsOf [47] ∨ componentsOf path = componentsOf [46, 46]
       then EBUSY else ENOTEMPTY)))

/-- `Dir::remove_file_secure`. -/
def remove_file_secure (os : OS) (env : Env) (path : List Nat) (lf : LookupFlags)
    (fuel : Nat) : Option (Except IOErr Unit) :=
  match prepare_inner_operation os env path lf fuel with
  | none => none
  | some (.error e) => some (.error e)
  | some (.ok (subdir, some fname)) =>
    match env.removeFileAt (subdir.getD env.rootFd) fname with
    | .ok _ => some (.ok ())
    | .error e => some (.error (.os e))
  | some (.ok (_, none)) => some (.error (.os EISDIR))

/-- `Dir::read_link_secure`. -/
def read_link_secure (os : OS) (env : Env) (path : List Nat) (lf : LookupFlags)
    (fuel : Nat) : Option (Except IOErr (List Nat)) :=
  match prepare_inner_operation os env path lf fuel with
  | none => none
  | some (.error e) => some (.error e)
  | some (.ok (subdir, some fname)) =>
    match env.read_link (subdir.getD env.rootFd) fname with
    | .ok t => some (.ok t)
    | .error e => some (.error (.os e))
  | some (.ok (_, none)) => some (.error (.os EINVAL))

/-- `Dir::symlink_secure`. -/
def symlink_secure (os : OS) (env : Env) (path value : List Nat) (lf : LookupFlags)
    (fuel : Nat) : Option (Except IOErr Unit) :=
  match prepare_inner_operation os env path lf fuel with
  | none => none
  | some (.error e) => some (.error e)
  | some (.ok (subdir, some fname)) =>
    match env.symlinkAt (subdir.getD env.rootFd) fname value with
    | .ok _ => some (.ok ())
    | .error e => some (.error (.os e))
  | some (.ok (_, none)) => some (.error (.os EEXIST))

/-- `Dir::local_rename_secure` (i.e. `rename_secure` with both directories
equal to the base). -/
def local_rename_secure (os : OS) (env : Env) (old new : List Nat) (lf : LookupFlags)
    (fuel : Nat) : Option (Except IOErr Unit) :=
  if endsWithParent old then some (.error (.os ENOTSUP))
  else
    match prepare_inner_operation os env old lf fuel with
    | none => none
    | some (.error e) => some (.error e)
    | some (.ok (_, none)) => some (.error (.os ENOTSUP))
    | some (.ok (oldSub, some oldF)) =>
      match prepare_inner_operation os env new lf fuel with
      | none => none
      | some (.error e) => some (.error e)
      | some (.ok (_, none)) => some (.error (.os EEXIST))
      | some (.ok (newSub, some newF)) =>
        match env.renameAt (oldSub.getD env.rootFd) oldF (newSub.getD env.rootFd) newF with
        | .ok _ => some (.ok ())
        | .error e => some (.error (.os e))

/-- A small concrete oracle: the base is fd 0 on device 1; `openat` of the
name `a` (byte 97) yields fd 3; everything else is absent; `try_clone`
duplicates the base as fd 5; the kernel has no `openat2`. -/
def testEnv : Env where
  rootFd := 0
  selfDev := .ok 1
  symloopMax := none
  openat := fun _ f _ _ => if f = [97] then .ok 3 else .error ENOENT
  fdDev := fun _ => .ok 1
  read_link := fun _ _ => .error EINVAL
  tryClone := .ok 5
  openat2Sys := fun _ _ => .error ENOSYS
  removeDirAt := fun _ _ => .ok ()
  createDirAt := fun _ _ _ => .ok ()
  removeFileAt := fun _ _ => .ok ()
  symlinkAt := fun _ _ _ => .ok ()
  renameAt := fun _ _ _ _ => .ok ()

/-- Oracle with a symlink: the name `l` (byte 108) is a symlink to `a/`,
so `openat` on it fails `ELOOP` and `read_link` yields `[97, 47]`. -/
def linkEnv : Env :=
  { testEnv with
    openat := fun _ f _ _ => if f = [108] then .error ELOOP else .ok 3
    read_link := fun _ f => if f = [108] then .ok [97, 47] else .error EINVAL }

/-- Oracle for the race/limit scenarios: every `openat` fails `ENOTDIR`,
but `read_link` confirms a symlink with target `a`. -/
def raceEnv : Env :=
  { testEnv with
    openat := fun _ _ _ _ => .error ENOTDIR
    read_link := fun _ _ => .ok [97] }

/-- C1: In the manual resolver walk (`open_file_secure`), popping a root
token `/` clears the parent stack and resets the current directory to the
base when `IN_ROOT` is set, and fails with `EXDEV` when `IN_ROOT` is not
set; popping a `..` token fails with `EXDEV` when
`ALLOW_PARENT_COMPONENTS` is not set, otherwise pops the most recent
parent into the current directory when the parent stack is non-empty,
remains at the base when the stack is empty and `IN_ROOT` is set, and
fails with `EXDEV` when the stack is empty and `IN_ROOT` is not set. -/
theorem C1_root_and_parent_token_steps (os : OS) (env : Env) (lf : LookupFlags)
    (mode rootdev nmax fuel : Nat) (rest : List (List Nat)) (curdir : Option Nat)
    (parents : List (Option Nat)) (nfound fflags : Nat) :
    (lf.in_root = true →
      walkLoop os env lf mode rootdev nmax (fuel + 1) ([47] :: rest) curdir parents nfound fflags
        = walkLoop os env lf mode rootdev nmax fuel rest none [] nfound fflags) ∧
    (lf.in_root = false →
      walkLoop os env lf mode rootdev nmax (fuel + 1) ([47] :: rest) curdir parents nfound fflags
        = some (.error (.os EXDEV))) ∧
    (lf.allow_parent_components = false →
      walkLoop os env lf mode rootdev nmax (fuel + 1) ([46, 46] :: rest) curdir parents
          nfound fflags
        = some (.error (.os EXDEV))) ∧
    (∀ newdir ps, lf.allow_parent_components = true →
      walkLoop os env lf mode rootdev nmax (fuel + 1) ([46, 46] :: rest) curdir
          (newdir :: ps) nfound fflags
        = walkLoop os env lf mode rootdev nmax fuel rest newdir ps nfound fflags) ∧
    (lf.allow_parent_components = true → lf.in_root = true →
      walkLoop os env lf mode rootdev nmax (fuel + 1) ([46, 46] :: rest) none [] nfound fflags
        = walkLoop os env lf mode rootdev nmax fuel rest none [] nfound fflags) ∧
    (lf.allow_parent_components = true → lf.in_root = false →
      walkLoop os env lf mode rootdev nmax (fuel + 1) ([46, 46] :: rest) curdir [] nfound fflags
        = some (.error (.os EXDEV))) := by
  refine ⟨fun h => ?_, fun h => ?_, fun h => ?_, fun newdir ps h => ?_,
    fun h h2 => ?_, fun h h2 => ?_⟩ <;>
    simp [walkLoop, h]
  · simp [h2]
  · simp [h2]

/-- Witness for C1 at concrete inputs. -/
theorem C1_root_and_parent_token_steps_witness :
    (walkLoop .other testEnv { in_root := true } 0 0 40 3 ([47] :: [[97]]) (some 9) [some 8] 0 0
        = walkLoop .other testEnv { in_root := true } 0 0 40 2 [[97]] none [] 0 0) ∧
    (walkLoop .other testEnv {} 0 0 40 3 ([46, 46] :: []) none [] 0 0
        = some (.error (.os EXDEV))) ∧
    (walkLoop .other testEnv { allow_parent_components := true } 0 0 40 3
        ([46, 46] :: []) (some 9) [some 8] 0 0
        = walkLoop .other testEnv { allow_parent_components := true } 0 0 40 2
            [] (some 8) [] 0 0) :=
  ⟨(C1_root_and_parent_token_steps .other testEnv { in_root := true } 0 0 40 2 [[97]]
      (some 9) [some 8] 0 0).1 rfl,
   (C1_root_and_parent_token_steps .other testEnv {} 0 0 40 2 [] none [] 0 0).2.2.1 rfl,
   ((C1_root_and_parent_token_steps .other testEnv { allow_parent_components := true }
      0 0 40 2 [] (some 9) [] 0 0).2.2.2.1 (some 8) [] rfl)⟩

/-- C2: Whenever the manual resolver confirms via readlink that a component
is a symlink: if the number of symlinks already expanded has reached the
limit it returns `ELOOP`, otherwise it increments the counter; if the
pending queue is empty (final component) and the link target's byte
representation ends with `/`, it ORs `O_DIRECTORY` into the final open
flags; then it splices the target's components at the front of the queue so
the resulting queue equals `target_components ++ rest`, consumed leftmost
first.  The limit is fixed at walk start from `sysconf(_SC_SYMLOOP_MAX)`,
defaulting to 40 when unavailable, and is 0 under `NO_SYMLINKS`, so under
`NO_SYMLINKS` any confirmed symlink fails with `ELOOP`. -/
theorem C2_symlink_confirmation_steps (os : OS) (env : Env) (lf : LookupFlags)
    (mode rootdev nmax fuel : Nat) (fname : List Nat) (rest : List (List Nat))
    (curdir : Option Nat) (parents : List (Option Nat)) (nfound fflags : Nat)
    (e : Nat) (target : List Nat) (tcomps : List (List Nat))
    (hname1 : fname ≠ [47]) (hname2 : fname ≠ [46, 46])
    (hopen : env.openat (curdir.getD env.rootFd) fname
        ((if rest.isEmpty then fflags else BASE_DIR_FLAGS os) ||| O_NOFOLLOW ||| O_CLOEXEC)
        mode = .error e)
    (hnorm : normalize_errno os e = ELOOP ∨ normalize_errno os e = ENOTDIR)
    (hrl : env.read_link (curdir.getD env.rootFd) fname = .ok target)
    (hmap : map_components (componentsOf target) = .ok tcomps) :
    (nfound ≥ nmax →
      walkLoop os env lf mode rootdev nmax (fuel + 1) (fname :: rest) curdir parents
          nfound fflags
        = some (.error (.os ELOOP))) ∧
    (nfound < nmax →
      walkLoop os env lf mode rootdev nmax (fuel + 1) (fname :: rest) curdir parents
          nfound fflags
        = walkLoop os env lf mode rootdev nmax fuel (tcomps ++ rest) curdir parents
            (nfound + 1)
            (if rest.isEmpty && (target.getLast? == some 47) then fflags ||| O_DIRECTORY
             else fflags)) ∧
    (lf.no_symlinks = true → symlink_limit env lf = 0) ∧
    (lf.no_symlinks = false → env.symloopMax = none →
      symlink_limit env lf = DEFAULT_SYMLOOP_MAX) ∧
    (∀ m, lf.no_symlinks = false → env.symloopMax = some m → symlink_limit env lf = m) ∧
    (nmax = 0 →
      walkLoop os env lf mode rootdev nmax (fuel + 1) (fname :: rest) curdir parents
          nfound fflags
        = some (.error (.os ELOOP))) := by
  refine ⟨fun hge => ?_, fun hlt => ?_, fun h => by simp [symlink_limit, h],
    fun h h2 => by simp [symlink_limit, h, h2], fun m h h2 => by simp [symlink_limit, h, h2],
    fun h0 => ?_⟩
  · simp only [walkLoop, if_neg hname1, if_neg hname2, hopen, hrl, hmap]
    rcases hnorm with h | h <;> simp [h, hge]
  · simp only [walkLoop, if_neg hname1, if_neg hname2, hopen, hrl, hmap]
    rcases hnorm with h | h <;> simp [h, Nat.not_le_of_lt hlt, hmap]
  · subst h0
    simp only [walkLoop, if_neg hname1, if_neg hname2, hopen, hrl, hmap]
    rcases hnorm with h | h <;> simp [h]

/-- Witness for C2: the symlink `l -> a/` in `linkEnv`, expanded as the
final component (so `O_DIRECTORY` is OR-ed in), and the `NO_SYMLINKS`
limit. -/
theorem C2_symlink_confirmation_steps_witness :
    (0 < 40 ∧
      walkLoop .other linkEnv {} 0 0 40 3 [[108]] none [] 0 0
        = walkLoop .other linkEnv {} 0 0 40 2 ([[97]] ++ []) none [] 1 (0 ||| O_DIRECTORY)) ∧
    symlink_limit linkEnv { no_symlinks := true } = 0 ∧
    walkLoop .other linkEnv { no_symlinks := true } 0 0 0 3 [[108]] none [] 0 0
      = some (.error (.os ELOOP)) := by
  have h1 := C2_symlink_confirmation_steps .other linkEnv {} 0 0 40 2 [108] [] none [] 0 0
    ELOOP [97, 47] [[97]] (by decide) (by decide) rfl (Or.inl rfl) rfl rfl
  have h2 := C2_symlink_confirmation_steps .other linkEnv { no_symlinks := true } 0 0 0 2
    [108] [] none [] 0 0 ELOOP [97, 47] [[97]] (by decide) (by decide) rfl (Or.inl rfl) rfl rfl
  refine ⟨⟨by decide, ?_⟩, h2.2.2.1 rfl, h2.2.2.2.2.2 rfl⟩
  have := h1.2.1 (by decide)
  simpa using this

/-- C3: On Linux, `open_file_secure` attempts the `openat2` fast path if
and only if `NO_XDEV` and `XDEV_BIND_OK` are not both set; before the
syscall, when `ALLOW_PARENT_COMPONENTS` is unset and any component of the
input path is `..`, it returns `EXDEV` without issuing the syscall (the
conclusion holds for every oracle); it falls back to the manual walk
exactly when `openat2` fails with `ENOSYS` or `E2BIG`, returning any other
`openat2` error verbatim; the resolve flags always include
`RESOLVE_NO_MAGICLINKS`, include `RESOLVE_NO_SYMLINKS` iff `NO_SYMLINKS`,
`RESOLVE_NO_XDEV` iff `NO_XDEV`, and `RESOLVE_IN_ROOT` iff `IN_ROOT`,
else `RESOLVE_BENEATH`. -/
theorem C3_openat2_fast_path (env : Env) (path : List Nat) (lf : LookupFlags)
    (ff mode fuel fd e : Nat) :
    ((lf.no_xdev && lf.xdev_bind_ok) = false → lf.allow_parent_components = false →
      Comp.parentDir ∈ componentsOf path →
      open_file_secure .linux env path lf ff mode fuel = some (.error (.os EXDEV))) ∧
    ((lf.no_xdev && lf.xdev_bind_ok) = false →
      (lf.allow_parent_components = true ∨ Comp.parentDir ∉ componentsOf path) →
      0 ∉ path →
      env.openat2Sys path
          { flags := ff, mode := some mode, resolve_flags := computeResolveFlags lf }
        = .ok fd →
      open_file_secure .linux env path lf ff mode fuel = some (.ok fd)) ∧
    ((lf.no_xdev && lf.xdev_bind_ok) = false →
      (lf.allow_parent_components = true ∨ Comp.parentDir ∉ componentsOf path) →
      0 ∉ path →
      env.openat2Sys path
          { flags := ff, mode := some mode, resolve_flags := computeResolveFlags lf }
        = .error e →
      (e = ENOSYS ∨ e = E2BIG) →
      open_file_secure .linux env path lf ff mode fuel
        = manual_walk .linux env path lf ff mode fuel) ∧
    ((lf.no_xdev && lf.xdev_bind_ok) = false →
      (lf.allow_parent_components = true ∨ Comp.parentDir ∉ componentsOf path) →
      0 ∉ path →
      env.openat2Sys path
          { flags := ff, mode := some mode, resolve_flags := computeResolveFlags lf }
        = .error e →
      e ≠ ENOSYS → e ≠ E2BIG →
      open_file_secure .linux env path lf ff mode fuel = some (.error (.os e))) ∧
    (lf.no_xdev = true → lf.xdev_bind_ok = true →
      open_file_secure .linux env path lf ff mode fuel
        = manual_walk .linux env path lf ff mode fuel) ∧
    (computeResolveFlags lf &&& RESOLVE_NO_MAGICLINKS = RESOLVE_NO_MAGICLINKS) ∧
    ((computeResolveFlags lf &&& RESOLVE_NO_SYMLINKS = RESOLVE_NO_SYMLINKS)
      ↔ lf.no_symlinks = true) ∧
    ((computeResolveFlags lf &&& RESOLVE_NO_XDEV = RESOLVE_NO_XDEV) ↔ lf.no_xdev = true) ∧
    ((computeResolveFlags lf &&& RESOLVE_IN_ROOT = RESOLVE_IN_ROOT) ↔ lf.in_root = true) ∧
    ((computeResolveFlags lf &&& RESOLVE_BENEATH = RESOLVE_BENEATH)
      ↔ lf.in_root = false) := by
  obtain ⟨s, r, a, x, b⟩ := lf
  refine ⟨fun hboth hapc hmem => ?_, fun hboth hpass hnul hok => ?_,
    fun hboth hpass hnul herr hfb => ?_, fun hboth hpass hnul herr hne1 hne2 => ?_,
    fun hx hb => ?_, ?_, ?_, ?_, ?_, ?_⟩
  · simp only [open_file_secure] at *
    simp [hboth, hapc, hmem]
  · have hfilt : (!a && decide (Comp.parentDir ∈ componentsOf path)) = false := by
      rcases hpass with h | h <;> simp_all
    simp only [open_file_secure]
    simp [hboth, hfilt, openat2_call, hnul, hok]
  · have hfilt : (!a && decide (Comp.parentDir ∈ componentsOf path)) = false := by
      rcases hpass with h | h <;> simp_all
    simp only [open_file_secure]
    rcases hfb with h | h <;> subst h <;> simp [hboth, hfilt, openat2_call, hnul, herr]
  · have hfilt : (!a && decide (Comp.parentDir ∈ componentsOf path)) = false := by
      rcases hpass with h | h <;> simp_all
    simp only [open_file_secure]
    simp [hboth, hfilt, openat2_call, hnul, herr, hne1, hne2]
  · subst hx; subst hb
    simp [open_file_secure]
  · cases s <;> cases x <;> cases r <;> cases a <;> cases b <;> decide
  · cases s <;> cases x <;> cases r <;> cases a <;> cases b <;> decide
  · cases s <;> cases x <;> cases r <;> cases a <;> cases b <;> decide
  · cases s <;> cases x <;> cases r <;> cases a <;> cases b <;> decide
  · cases s <;> cases x <;> cases r <;> cases a <;> cases b <;> decide

/-- Witness for C3: pre-filter `EXDEV` on `a/..` without
`ALLOW_PARENT_COMPONENTS`, and the `ENOSYS` fallback on `a`. -/
theorem C3_openat2_fast_path_witness :
    open_file_secure .linux testEnv [97, 47, 46, 46] {} 0 0 5 = some (.error (.os EXDEV)) ∧
    open_file_secure .linux testEnv [97] {} 0 0 5
      = manual_walk .linux testEnv [97] {} 0 0 5 :=
  ⟨(C3_openat2_fast_path testEnv [97, 47, 46, 46] {} 0 0 5 0 0).1 rfl rfl (by decide),
   (C3_openat2_fast_path testEnv [97] {} 0 0 5 0 ENOSYS).2.2.1 rfl (Or.inr (by decide))
     (by decide) rfl (Or.inl rfl)⟩

/-- Helper: when `NO_XDEV` is unset, the walk result depends only on the
`openat`, `read_link`, `tryClone` oracles and the base fd: the fstat oracle
`fdDev` and the captured root device are never consulted. -/
theorem walkLoop_no_xdev_indep (os : OS) (env' env : Env)
    (hro : env'.rootFd = env.rootFd) (hoa : env'.openat = env.openat)
    (hrl : env'.read_link = env.read_link) (htc : env'.tryClone = env.tryClone)
    (lf : LookupFlags) (h : lf.no_xdev = false) (mode rd1 rd2 nmax : Nat) :
    ∀ fuel queue curdir parents nfound fflags,
      walkLoop os env' lf mode rd1 nmax fuel queue curdir parents nfound fflags
        = walkLoop os env lf mode rd2 nmax fuel queue curdir parents nfound fflags := by
  intro fuel
  induction fuel with
  | zero => intro q c ps nf ff; rfl
  | succ n ih =>
    intro q c ps nf ff
    cases q with
    | nil =>
      simp only [walkLoop, htc]
    | cons fname rest =>
      simp only [walkLoop, h, hro, hoa, hrl]
      repeat' split
      all_goals first
        | rfl
        | apply ih
        | simp_all

/-- C4: When `NO_XDEV` is set, the manual resolver captures the base
directory's `st_dev` exactly once before the walk (the walk runs against
that initially captured value), and after every successful component open
it fstats the newly opened fd and returns `EXDEV` when that fd's `st_dev`
differs from the base's; the comparison happens after the open succeeds,
on the opened fd itself; when `NO_XDEV` is unset, no device comparison is
performed for any component (the walk is independent of the fstat oracle
and of the captured device). -/
theorem C4_no_xdev_device_check (os : OS) (env : Env) (lf : LookupFlags)
    (mode rootdev nmax fuel : Nat) (fname : List Nat) (rest queue : List (List Nat))
    (curdir : Option Nat) (parents : List (Option Nat)) (nfound fflags : Nat)
    (fd d bd rd1 rd2 : Nat) (p : List Nat) (g : Nat → Except Nat Nat)
    (sd : Except Nat Nat) :
    (lf.no_xdev = true → fname ≠ [47] → fname ≠ [46, 46] →
      env.openat (curdir.getD env.rootFd) fname
          ((if rest.isEmpty then fflags else BASE_DIR_FLAGS os) ||| O_NOFOLLOW ||| O_CLOEXEC)
          mode = .ok fd →
      env.fdDev fd = .ok d → d ≠ rootdev →
      walkLoop os env lf mode rootdev nmax (fuel + 1) (fname :: rest) curdir parents
          nfound fflags
        = some (.error (.os EXDEV))) ∧
    (lf.no_xdev = true → fname ≠ [47] → fname ≠ [46, 46] →
      env.openat (curdir.getD env.rootFd) fname (fflags ||| O_NOFOLLOW ||| O_CLOEXEC) mode
        = .ok fd →
      env.fdDev fd = .ok d → d = rootdev →
      walkLoop os env lf mode rootdev nmax (fuel + 1) [fname] curdir parents nfound fflags
        = some (.ok fd)) ∧
    (lf.no_xdev = true → fname ≠ [47] → fname ≠ [46, 46] → rest ≠ [] →
      env.openat (curdir.getD env.rootFd) fname (BASE_DIR_FLAGS os ||| O_NOFOLLOW ||| O_CLOEXEC)
          mode = .ok fd →
      env.fdDev fd = .ok d → d = rootdev →
      walkLoop os env lf mode rootdev nmax (fuel + 1) (fname :: rest) curdir parents
          nfound fflags
        = walkLoop os env lf mode rootdev nmax fuel rest (some fd)
            (if lf.allow_parent_components then curdir :: parents else parents)
            nfound fflags) ∧
    (lf.no_xdev = true → env.selfDev = .ok bd →
      map_components (componentsOf p) = .ok queue →
      manual_walk os env p lf fflags mode fuel
        = walkLoop os env lf mode bd (symlink_limit env lf) fuel queue none [] 0 fflags) ∧
    (lf.no_xdev = false →
      walkLoop os { env with fdDev := g, selfDev := sd } lf mode rd1 nmax fuel queue curdir
          parents nfound fflags
        = walkLoop os env lf mode rd2 nmax fuel queue curdir parents nfound fflags) ∧
    (lf.no_xdev = false →
      manual_walk os { env with fdDev := g } p lf fflags mode fuel
        = manual_walk os env p lf fflags mode fuel) := by
  refine ⟨fun h h1 h2 hopen hdev hne => ?_, fun h h1 h2 hopen hdev heq => ?_,
    fun h h1 h2 hrest hopen hdev heq => ?_, fun h hself hmap => ?_, fun h => ?_, fun h => ?_⟩
  · simp only [walkLoop, if_neg h1, if_neg h2, hopen]
    simp [h, hdev, hne]
  · simp only [walkLoop, if_neg h1, if_neg h2, List.isEmpty_nil, if_pos, hopen]
    simp [h, hdev, heq]
  · have hre : rest.isEmpty = false := by
      cases rest with
      | nil => exact absurd rfl hrest
      | cons a as => rfl
    simp only [walkLoop, if_neg h1, if_neg h2, hre, Bool.false_eq_true, if_false, hopen]
    simp [h, hdev, heq, hrest]
  · simp [manual_walk, h, hself, hmap]
  · exact walkLoop_no_xdev_indep os { env with fdDev := g, selfDev := sd } env rfl rfl rfl rfl
      lf h mode rd1 rd2 nmax fuel queue curdir parents nfound fflags
  · simp only [manual_walk, h]
    cases hm : map_components (componentsOf p) with
    | error e => simp
    | ok q =>
      simp only []
      exact walkLoop_no_xdev_indep os { env with fdDev := g } env rfl rfl rfl rfl
        lf h mode U64_MAX U64_MAX (symlink_limit env lf) fuel q none [] 0 fflags

/-- Oracle for the device check: `a` opens as fd 3, which fstats to
device 2 while the base is device 1. -/
def xdevEnv : Env :=
  { testEnv with fdDev := fun fdd => .ok (if fdd = 3 then 2 else 1) }

/-- Witness for C4: opening `a` under `NO_XDEV` fails `EXDEV` because the
new fd is on device 2 while the base device, captured up front, is 1. -/
theorem C4_no_xdev_device_check_witness :
    walkLoop .other xdevEnv { no_xdev := true } 0 1 40 1 [[97]] none [] 0 0
      = some (.error (.os EXDEV)) ∧
    manual_walk .other xdevEnv [97] { no_xdev := true } 0 0 1
      = walkLoop .other xdevEnv { no_xdev := true } 0 1
          (symlink_limit xdevEnv { no_xdev := true }) 1 [[97]] none [] 0 0 :=
  ⟨(C4_no_xdev_device_check .other xdevEnv { no_xdev := true } 0 1 40 0 [97] [] [[97]]
      none [] 0 0 3 2 1 1 1 [97] (fun _ => .ok 0) (.ok 0)).1 rfl (by decide) (by decide)
      rfl rfl (by decide),
   (C4_no_xdev_device_check .other xdevEnv { no_xdev := true } 0 1 40 1 [97] [] [[97]]
      none [] 0 0 3 2 1 1 1 [97] (fun _ => .ok 0) (.ok 0)).2.2.2.1 rfl rfl rfl⟩

/-- Helper: `map_component_cstring` can only fail with the NUL error. -/
theorem map_component_cstring_error_nul (c : Comp) (e : IOErr)
    (h : map_component_cstring c = .error e) : e = .nul := by
  cases c with
  | curDir => simp [map_component_cstring] at h
  | rootDir => simp [map_component_cstring] at h
  | parentDir => simp [map_component_cstring] at h
  | normal f =>
    by_cases h0 : 0 ∈ f
    · simp [map_component_cstring, h0] at h
      exact h.symm
    · simp [map_component_cstring, h0] at h

/-- Helper: `map_components` can only fail with the NUL error. -/
theorem map_components_error_nul : ∀ (cs : List Comp) (e : IOErr),
    map_components cs = .error e → e = .nul := by
  intro cs
  induction cs with
  | nil => intro e h; simp [map_components] at h
  | cons c rest ih =>
    intro e h
    simp only [map_components] at h
    cases hc : map_component_cstring c with
    | error e2 =>
      rw [hc] at h
      cases h
      exact map_component_cstring_error_nul c e hc
    | ok of =>
      rw [hc] at h
      cases of with
      | none => exact ih e h
      | some f =>
        cases hm : map_components rest with
        | error e3 =>
          rw [hm] at h
          cases h
          exact ih e hm
        | ok q => rw [hm] at h; cases h

/-- One iteration of the component loop: `walkLoop` at positive fuel with a
non-empty queue, the component `fname` at the head. -/
def walkStep (os : OS) (env : Env) (lf : LookupFlags)
    (mode rootdev nmax fuel : Nat) (fname : List Nat) (rest : List (List Nat))
    (curdir : Option Nat) (parents : List (Option Nat)) (nfound fflags : Nat) :
    Option (Except IOErr Nat) :=
  walkLoop os env lf mode rootdev nmax (fuel + 1) (fname :: rest) curdir parents nfound fflags

/-- C5 (amended): when a component open fails with `ELOOP` or `ENOTDIR`
(after the FreeBSD `EMLINK` and NetBSD `EFTYPE` normalizations to
`ELOOP`), the resolver issues readlink on that component; if readlink
fails with `EINVAL`, the resolver returns the original open error when the
(normalized) open errno was `ENOTDIR`, and returns `EAGAIN` when it was
`ELOOP`; any other readlink error is surfaced unchanged; any open errno
other than normalized `ELOOP`/`ENOTDIR` is surfaced unchanged.  In
addition to these translations, the resolver synthesizes `ELOOP` when
readlink confirms a symlink but the symlink limit has been reached; the
final conjunct enumerates every possible outcome after a failed component
open. -/
theorem C5_open_error_translations (os : OS) (env : Env) (lf : LookupFlags)
    (mode rootdev nmax fuel : Nat) (fname : List Nat) (rest : List (List Nat))
    (curdir : Option Nat) (parents : List (Option Nat)) (nfound fflags : Nat)
    (e re : Nat)
    (hname1 : fname ≠ [47]) (hname2 : fname ≠ [46, 46])
    (hopen : env.openat (curdir.getD env.rootFd) fname
        ((if rest.isEmpty then fflags else BASE_DIR_FLAGS os) ||| O_NOFOLLOW ||| O_CLOEXEC)
        mode = .error e) :
    (normalize_errno .freebsd EMLINK = ELOOP ∧ normalize_errno .netbsd EFTYPE = ELOOP ∧
      (∀ x, x ≠ EMLINK → normalize_errno .freebsd x = x) ∧
      (∀ x, x ≠ EFTYPE → normalize_errno .netbsd x = x) ∧
      (∀ x, normalize_errno .linux x = x) ∧ (∀ x, normalize_errno .other x = x)) ∧
    ((normalize_errno os e = ELOOP ∨ normalize_errno os e = ENOTDIR) →
      env.read_link (curdir.getD env.rootFd) fname = .error EINVAL →
      (normalize_errno os e = ENOTDIR →
        walkStep os env lf mode rootdev nmax fuel fname rest curdir parents nfound fflags
          = some (.error (.os e))) ∧
      (normalize_errno os e = ELOOP →
        walkStep os env lf mode rootdev nmax fuel fname rest curdir parents nfound fflags
          = some (.error (.os EAGAIN)))) ∧
    ((normalize_errno os e = ELOOP ∨ normalize_errno os e = ENOTDIR) →
      env.read_link (curdir.getD env.rootFd) fname = .error re → re ≠ EINVAL →
      walkStep os env lf mode rootdev nmax fuel fname rest curdir parents nfound fflags
        = some (.error (.os re))) ∧
    (normalize_errno os e ≠ ELOOP → normalize_errno os e ≠ ENOTDIR →
      walkStep os env lf mode rootdev nmax fuel fname rest curdir parents nfound fflags
        = some (.error (.os e))) ∧
    (walkStep os env lf mode rootdev nmax fuel fname rest curdir parents nfound fflags
        = some (.error (.os e)) ∨
      walkStep os env lf mode rootdev nmax fuel fname rest curdir parents nfound fflags
        = some (.error (.os ELOOP)) ∨
      walkStep os env lf mode rootdev nmax fuel fname rest curdir parents nfound fflags
        = some (.error (.os EAGAIN)) ∨
      (∃ re2, env.read_link (curdir.getD env.rootFd) fname = .error re2 ∧
        walkStep os env lf mode rootdev nmax fuel fname rest curdir parents nfound fflags
          = some (.error (.os re2))) ∨
      walkStep os env lf mode rootdev nmax fuel fname rest curdir parents nfound fflags
        = some (.error .nul) ∨
      (∃ target tcomps,
        env.read_link (curdir.getD env.rootFd) fname = .ok target ∧
        map_components (componentsOf target) = .ok tcomps ∧
        walkStep os env lf mode rootdev nmax fuel fname rest curdir parents nfound fflags
          = walkLoop os env lf mode rootdev nmax fuel (tcomps ++ rest) curdir parents
              (nfound + 1)
              (if rest.isEmpty && (target.getLast? == some 47) then fflags ||| O_DIRECTORY
               else fflags))) := by
  refine ⟨⟨rfl, rfl, fun x hx => by simp [normalize_errno, hx],
      fun x hx => by simp [normalize_errno, hx], fun x => rfl, fun x => rfl⟩,
    fun hn hrl => ⟨fun hd => ?_, fun hl => ?_⟩, fun hn hrl hre => ?_, fun hn1 hn2 => ?_, ?_⟩
  · simp only [walkStep, walkLoop, if_neg hname1, if_neg hname2, hopen, hrl]
    simp [hd]
  · simp only [walkStep, walkLoop, if_neg hname1, if_neg hname2, hopen, hrl]
    simp [hl, ELOOP, ENOTDIR]
  · simp only [walkStep, walkLoop, if_neg hname1, if_neg hname2, hopen, hrl]
    rcases hn with h | h <;> simp [h, hre, ELOOP, ENOTDIR]
  · simp only [walkStep, walkLoop, if_neg hname1, if_neg hname2, hopen]
    simp [hn1, hn2]
  · by_cases hn : normalize_errno os e = ELOOP ∨ normalize_errno os e = ENOTDIR
    · cases hrl : env.read_link (curdir.getD env.rootFd) fname with
      | ok target =>
        by_cases hge : nfound ≥ nmax
        · refine Or.inr (Or.inl ?_)
          simp only [walkStep, walkLoop, if_neg hname1, if_neg hname2, hopen, hrl]
          rcases hn with h | h <;> simp [h, hge]
        · cases hm : map_components (componentsOf target) with
          | error err =>
            have := map_components_error_nul _ _ hm
            subst this
            refine Or.inr (Or.inr (Or.inr (Or.inr (Or.inl ?_))))
            simp only [walkStep, walkLoop, if_neg hname1, if_neg hname2, hopen, hrl, hm]
            rcases hn with h | h <;> simp [h, hge]
          | ok tcomps =>
            refine Or.inr (Or.inr (Or.inr (Or.inr (Or.inr ⟨target, tcomps, rfl, hm, ?_⟩))))
            simp only [walkStep, walkLoop, if_neg hname1, if_neg hname2, hopen, hrl, hm]
            rcases hn with h | h <;> simp [h, hge]
      | error re2 =>
        by_cases hei : re2 = EINVAL
        · subst hei
          rcases hn with h | h
          · refine Or.inr (Or.inr (Or.inl ?_))
            simp only [walkStep, walkLoop, if_neg hname1, if_neg hname2, hopen, hrl]
            simp [h, ELOOP, ENOTDIR]
          · refine Or.inl ?_
            simp only [walkStep, walkLoop, if_neg hname1, if_neg hname2, hopen, hrl]
            simp [h]
        · refine Or.inr (Or.inr (Or.inr (Or.inl ⟨re2, rfl, ?_⟩)))
          simp only [walkStep, walkLoop, if_neg hname1, if_neg hname2, hopen, hrl]
          rcases hn with h | h <;> simp [h, hei]
    · refine Or.inl ?_
      simp only [walkStep, walkLoop, if_neg hname1, if_neg hname2, hopen]
      simp [hn]

/-- Oracle where every open fails `ENOTDIR` and nothing is a symlink. -/
def notdirEnv : Env :=
  { testEnv with openat := fun _ _ _ _ => .error ENOTDIR }

/-- Witness for C5 at concrete inputs: an `ENOTDIR` open whose readlink
probe fails `EINVAL` surfaces the original `ENOTDIR`. -/
theorem C5_open_error_translations_witness :
    walkStep .other notdirEnv {} 0 0 40 1 [122] [] none [] 0 0
      = some (.error (.os ENOTDIR)) ∧
    normalize_errno .freebsd EMLINK = ELOOP :=
  ⟨((C5_open_error_translations .other notdirEnv {} 0 0 40 1 [122] [] none [] 0 0
      ENOTDIR EINVAL (by decide) (by decide) rfl).2.1 (Or.inr rfl) rfl).1 rfl,
   (C5_open_error_translations .other notdirEnv {} 0 0 40 1 [122] [] none [] 0 0
      ENOTDIR EINVAL (by decide) (by decide) rfl).1.1⟩

/-- C5 counterexample: under `NO_SYMLINKS` (symlink limit 0), a component
open failing `ENOTDIR` on a confirmed symlink makes the resolver return
the synthesized `ELOOP` — an errno that is neither the original open
error, nor `EAGAIN`, nor a readlink error (the readlink succeeded), so the
race translations are not the only errnos synthesized after a failed
component open. -/
theorem C5_symlink_limit_synthesized_eloop :
    open_file_secure .other raceEnv [108] { no_symlinks := true } 0 0 2
      = some (.error (.os ELOOP)) ∧
    raceEnv.openat 0 [108] (0 ||| O_NOFOLLOW ||| O_CLOEXEC) 0 = .error ENOTDIR ∧
    raceEnv.read_link 0 [108] = .ok [97] ∧
    ELOOP ≠ ENOTDIR ∧ ELOOP ≠ EAGAIN ∧ ELOOP ≠ EINVAL := by
  refine ⟨?_, rfl, rfl, by decide, by decide, by decide⟩
  rfl

/-- C6 (amended): `prepare_inner_operation` returns
`(Some(dup-of-base), None)` — not `(None, None)` — when the entire path is
`/` under `IN_ROOT` (empty after stripping); `(None, Some(name))` when the
parent slice is empty; `(Some(parent), Some(name))` when there is a
non-empty parent slice, with the parent obtained by a recursive resolver
invocation on that slice; and `(Some(dir), None)` when the path has no
final name component (a path ending in `..`) and `ALLOW_PARENT_COMPONENTS`
is set, failing with `EXDEV` when that flag is unset.  An absolute path is
rejected with `EXDEV` unless `IN_ROOT`, under which the leading `/` is
stripped and the remainder processed; an empty path yields `ENOENT`. -/
theorem C6_prepare_inner_operation_cases (os : OS) (env : Env) (path p : List Nat)
    (lf : LookupFlags) (fuel fd : Nat) (fname : List Nat) :
    (hasRoot path = true → lf.in_root = false →
      prepare_inner_operation os env path lf fuel = some (.error (.os EXDEV))) ∧
    (hasRoot path = false → path = [] →
      prepare_inner_operation os env path lf fuel = some (.error (.os ENOENT))) ∧
    (hasRoot path = true → lf.in_root = true → stripRootBytes path.tail = [] →
      env.tryClone = .ok fd →
      prepare_inner_operation os env path lf fuel = some (.ok (some fd, none))) ∧
    (hasRoot path = false → path ≠ [] →
      prepare_inner_operation os env path lf fuel = prepare_tail os env path lf fuel) ∧
    (hasRoot path = true → lf.in_root = true → stripRootBytes path.tail ≠ [] →
      prepare_inner_operation os env path lf fuel
        = prepare_tail os env (stripRootBytes path.tail) lf fuel) ∧
    (file_name p = some fname → parentBytes p = [] →
      prepare_tail os env p lf fuel = some (.ok (none, some fname))) ∧
    (file_name p = some fname → parentBytes p ≠ [] →
      open_file_secure os env (parentBytes p) lf (BASE_DIR_FLAGS os) 0 fuel
        = some (.ok fd) →
      prepare_tail os env p lf fuel = some (.ok (some fd, some fname))) ∧
    (file_name p = none → lf.allow_parent_components = false →
      prepare_tail os env p lf fuel = some (.error (.os EXDEV))) ∧
    (file_name p = none → lf.allow_parent_components = true →
      open_file_secure os env p lf (BASE_DIR_FLAGS os) 0 fuel = some (.ok fd) →
      prepare_tail os env p lf fuel = some (.ok (some fd, none))) := by
  refine ⟨fun hr hir => ?_, fun hr hempty => ?_, fun hr hir hstrip htc => ?_,
    fun hr hne => ?_, fun hr hir hne => ?_, fun hf hpar => ?_, fun hf hpar hsub => ?_,
    fun hf hapc => ?_, fun hf hapc hsub => ?_⟩
  · simp [prepare_inner_operation, hr, hir]
  · subst hempty
    simp [prepare_inner_operation, hasRoot]
  · simp [prepare_inner_operation, hr, hir, hstrip, htc]
  · simp [prepare_inner_operation, hr, hne]
  · simp [prepare_inner_operation, hr, hir, hne]
  · simp [prepare_tail, hf, hpar]
  · simp [prepare_tail, hf, hpar, hsub]
  · simp [prepare_tail, hf, hapc]
  · simp [prepare_tail, hf, hapc, hsub]

/-- Witness for C6: `/a` without `IN_ROOT` is `EXDEV`; the empty path is
`ENOENT`; the path `b` has an empty parent slice, giving
`(None, Some(b))`; `a/..` under `ALLOW_PARENT_COMPONENTS` resolves fully,
giving `(Some(base-dup), None)`. -/
theorem C6_prepare_inner_operation_cases_witness :
    prepare_inner_operation .other testEnv [47, 97] {} 5 = some (.error (.os EXDEV)) ∧
    prepare_inner_operation .other testEnv [] {} 5 = some (.error (.os ENOENT)) ∧
    prepare_tail .other testEnv [98] {} 5 = some (.ok (none, some [98])) ∧
    prepare_tail .other testEnv [97, 47, 46, 46] { allow_parent_components := true } 5
      = some (.ok (some 5, none)) :=
  ⟨(C6_prepare_inner_operation_cases .other testEnv [47, 97] [] {} 5 0 []).1 rfl rfl,
   (C6_prepare_inner_operation_cases .other testEnv [] [] {} 5 0 []).2.1 rfl rfl,
   (C6_prepare_inner_operation_cases .other testEnv [] [98] {} 5 0 [98]).2.2.2.2.2.1
     rfl rfl,
   (C6_prepare_inner_operation_cases .other testEnv [] [97, 47, 46, 46]
     { allow_parent_components := true } 5 5 []).2.2.2.2.2.2.2.2 rfl rfl (by rfl)⟩

/-- C6 counterexample: for the whole-path-is-base cases the code returns
`(Some(..), None)`, never `(None, None)`: the path `/` under `IN_ROOT`
yields `(Some(dup-of-base), None)`, and `./a`, whose parent `.` resolves
to the base, yields `(Some(dup-of-base), Some(a))` rather than
`(None, Some(a))`. -/
theorem C6_base_resolution_not_none_none :
    prepare_inner_operation .other testEnv [47] { in_root := true } 1
      = some (.ok (some 5, none)) ∧
    (some 5 : Option Nat) ≠ none ∧
    prepare_inner_operation .other testEnv [46, 47, 97] {} 1
      = some (.ok (some 5, some [97])) := by
  exact ⟨rfl, by decide, rfl⟩

/-- C7 (amended): an empty input path fails with `ENOENT` in
`prepare_inner_operation` and hence in every operation built on it
(create/remove/stat-style wrappers), for every flag combination; on the
Linux fast path the kernel's `ENOENT` for the empty path is surfaced
verbatim; but the manual walk on an empty path does NOT fail: its
component queue is empty, so it returns a duplicate of the base directory
fd. -/
theorem C7_empty_path_behavior (os : OS) (env : Env) (lf : LookupFlags)
    (v : List Nat) (ff mode fuel fd : Nat) :
    prepare_inner_operation os env [] lf fuel = some (.error (.os ENOENT)) ∧
    create_dir_secure os env [] mode lf fuel = some (.error (.os ENOENT)) ∧
    remove_dir_secure os env [] lf fuel = some (.error (.os ENOENT)) ∧
    remove_file_secure os env [] lf fuel = some (.error (.os ENOENT)) ∧
    read_link_secure os env [] lf fuel = some (.error (.os ENOENT)) ∧
    symlink_secure os env [] v lf fuel = some (.error (.os ENOENT)) ∧
    (lf.no_xdev = false → env.tryClone = .ok fd →
      manual_walk os env [] lf ff mode (fuel + 1) = some (.ok fd)) ∧
    ((lf.no_xdev && lf.xdev_bind_ok) = false →
      env.openat2Sys []
          { flags := ff, mode := some mode, resolve_flags := computeResolveFlags lf }
        = .error ENOENT →
      open_file_secure .linux env [] lf ff mode fuel = some (.error (.os ENOENT))) := by
  have hprep : prepare_inner_operation os env [] lf fuel = some (.error (.os ENOENT)) := by
    simp [prepare_inner_operation, hasRoot]
  refine ⟨hprep, ?_, ?_, ?_, ?_, ?_, fun hx htc => ?_, fun hboth hsys => ?_⟩
  · simp [create_dir_secure, hprep]
  · simp [remove_dir_secure, hprep]
  · simp [remove_file_secure, hprep]
  · simp [read_link_secure, hprep]
  · simp [symlink_secure, hprep]
  · have hq : map_components (componentsOf []) = .ok [] := rfl
    simp [manual_walk, hx, hq, walkLoop, htc]
  · have hmem : decide (Comp.parentDir ∈ componentsOf []) = false := rfl
    simp [open_file_secure, hboth, hmem, openat2_call, hsys, ENOENT, ENOSYS, E2BIG]

/-- Oracle whose `openat2` fails `ENOENT`: a kernel that supports the
syscall and rejects the empty path. -/
def enoentEnv : Env :=
  { testEnv with openat2Sys := fun _ _ => .error ENOENT }

/-- Witness for C7 at concrete inputs. -/
theorem C7_empty_path_behavior_witness :
    remove_file_secure .other testEnv [] { in_root := true } 3
      = some (.error (.os ENOENT)) ∧
    manual_walk .other testEnv [] {} 0 0 3 = some (.ok 5) ∧
    open_file_secure .linux enoentEnv [] {} 0 0 3 = some (.error (.os ENOENT)) :=
  ⟨(C7_empty_path_behavior .other testEnv { in_root := true } [] 0 0 3 0).2.2.2.1,
   (C7_empty_path_behavior .other testEnv {} [] 0 0 2 5).2.2.2.2.2.2.1 rfl rfl,
   (C7_empty_path_behavior .linux enoentEnv {} [] 0 0 3 0).2.2.2.2.2.2.2 rfl rfl⟩

/-- C7 counterexample: the open-style operations do NOT fail `ENOENT` on
the empty path when the manual walk runs: both on a non-Linux host and on
Linux with a kernel lacking `openat2` (the `ENOSYS` fallback), an empty
path returns a duplicate of the base directory fd. -/
theorem C7_manual_walk_empty_path_succeeds :
    open_file_secure .linux testEnv [] {} 0 0 1 = some (.ok 5) ∧
    open_file_secure .other testEnv [] {} 0 0 1 = some (.ok 5) ∧
    (some (.ok 5) : Option (Except IOErr Nat)) ≠ some (.error (.os ENOENT)) := by
  exact ⟨rfl, rfl, by simp⟩

/-- C8 (amended): when the preprocessor yields no final name,
`remove_dir_secure` chooses the errno syntactically from the given path:
`EBUSY` exactly when the path is component-equal to `/` or `..`, and
`ENOTEMPTY` for every other such path — regardless of whether the path
resolves to the base directory itself (e.g. `a/..` under
`ALLOW_PARENT_COMPONENTS` resolves to the base but yields `ENOTEMPTY`).
When there is a final name, the unlink is delegated to `remove_dir` on the
parent handle. -/
theorem C8_remove_dir_base_errnos (os : OS) (env : Env) (path : List Nat)
    (lf : LookupFlags) (fuel : Nat) (sd : Option Nat) (fname : List Nat) :
    (prepare_inner_operation os env path lf fuel = some (.ok (sd, none)) →
      remove_dir_secure os env path lf fuel
        = some (.error (.os
            (if componentsOf path = componentsOf [47]
                ∨ componentsOf path = componentsOf [46, 46]
             then EBUSY else ENOTEMPTY)))) ∧
    componentsOf [47] = [Comp.rootDir] ∧
    componentsOf [46, 46] = [Comp.parentDir] ∧
    (prepare_inner_operation os env path lf fuel = some (.ok (sd, some fname)) →
      remove_dir_secure os env path lf fuel
        = match env.removeDirAt (sd.getD env.rootFd) fname with
          | .ok _ => some (.ok ())
          | .error e => some (.error (.os e))) := by
  refine ⟨fun hprep => ?_, rfl, rfl, fun hprep => ?_⟩
  · simp [remove_dir_secure, hprep]
  · simp only [remove_dir_secure, hprep]

/-- Witness for C8: `/` under `IN_ROOT` gives `EBUSY`; `a/..` under
`ALLOW_PARENT_COMPONENTS` gives `ENOTEMPTY`. -/
theorem C8_remove_dir_base_errnos_witness :
    remove_dir_secure .other testEnv [47] { in_root := true } 1
      = some (.error (.os EBUSY)) ∧
    remove_dir_secure .other testEnv [97, 47, 46, 46]
        { allow_parent_components := true } 3
      = some (.error (.os ENOTEMPTY)) := by
  have h1 := (C8_remove_dir_base_errnos .other testEnv [47] { in_root := true } 1
    (some 5) []).1 rfl
  have h2 := (C8_remove_dir_base_errnos .other testEnv [97, 47, 46, 46]
    { allow_parent_components := true } 3 (some 5) []).1 rfl
  rw [h1, h2]
  exact ⟨rfl, rfl⟩

/-- C8 counterexample: `a/..` under `ALLOW_PARENT_COMPONENTS` resolves to
the base directory itself (the preprocessor returns the base duplicate
fd 5 produced by `try_clone`), yet `remove_dir_secure` returns
`ENOTEMPTY`, not the `EBUSY` the claim requires for every path whose
target is the base. -/
theorem C8_parent_resolving_base_gives_enotempty :
    prepare_inner_operation .other testEnv [97, 47, 46, 46]
        { allow_parent_components := true } 3 = some (.ok (some 5, none)) ∧
    testEnv.tryClone = .ok 5 ∧
    remove_dir_secure .other testEnv [97, 47, 46, 46]
        { allow_parent_components := true } 3 = some (.error (.os ENOTEMPTY)) ∧
    ENOTEMPTY ≠ EBUSY := by
  exact ⟨rfl, rfl, rfl, by decide⟩

/-- C9 (amended): `util::path_basename` operates on the byte
representation, preserving a trailing `/` on the final name and yielding
no basename for `/` or any path ending in `..` — but the split-path
preprocessor does not use it: `prepare_inner_operation` extracts the
final name with `Path::file_name()`, which strips the trailing slash, so
splitting `a/b/` produces the final name `b`, not `b/`. -/
theorem C9_basename_extraction (p : List Nat) (env : Env) (fuel fd : Nat) :
    (componentsOf p = [Comp.rootDir] → path_basename p = none) ∧
    ((componentsOf p).getLast? = some Comp.parentDir → path_basename p = none) ∧
    path_basename [97, 47, 98, 47] = some [98, 47] ∧
    path_basename [97, 47, 98] = some [98] ∧
    file_name [97, 47, 98, 47] = some [98] ∧
    (env.openat env.rootFd [97] (BASE_DIR_FLAGS .other ||| O_NOFOLLOW ||| O_CLOEXEC) 0
        = .ok fd →
      prepare_inner_operation .other env [97, 47, 98, 47] {} (fuel + 1)
        = some (.ok (some fd, some [98]))) := by
  refine ⟨fun h => by simp [path_basename, h], fun h => by simp [path_basename, h],
    rfl, rfl, rfl, fun hopen => ?_⟩
  have h1 : prepare_inner_operation .other env [97, 47, 98, 47] {} (fuel + 1)
      = match open_file_secure .other env [97] {} (BASE_DIR_FLAGS .other) 0 (fuel + 1) with
        | none => none
        | some (.error e) => some (.error e)
        | some (.ok fd2) => some (.ok (some fd2, some [98])) := rfl
  have h2 : open_file_secure .other env [97] {} (BASE_DIR_FLAGS .other) 0 (fuel + 1)
      = walkLoop .other env {} 0 U64_MAX (symlink_limit env {}) (fuel + 1) [[97]] none [] 0
          (BASE_DIR_FLAGS .other) := rfl
  have h3 : walkLoop .other env {} 0 U64_MAX (symlink_limit env {}) (fuel + 1) [[97]] none [] 0
      (BASE_DIR_FLAGS .other) = some (.ok fd) := by
    simp only [walkLoop]
    rw [if_neg (by decide), if_neg (by decide)]
    simp [hopen]
  rw [h1, h2, h3]

/-- Witness for C9: the `a/b/` split through a generic oracle. -/
theorem C9_basename_extraction_witness :
    path_basename [47] = none ∧
    path_basename [97, 47, 46, 46] = none ∧
    prepare_inner_operation .other testEnv [97, 47, 98, 47] {} 2
      = some (.ok (some 3, some [98])) :=
  ⟨(C9_basename_extraction [47] testEnv 0 0).1 rfl,
   (C9_basename_extraction [97, 47, 46, 46] testEnv 0 0).2.1 rfl,
   (C9_basename_extraction [] testEnv 1 3).2.2.2.2.2 rfl⟩

/-- C9 counterexample: splitting `a/b/` through the preprocessor yields
the final name `b` (the trailing slash is dropped by `file_name`), while
`util::path_basename` — which the operations do not call — would keep
`b/`. -/
theorem C9_preprocessor_strips_trailing_slash :
    prepare_inner_operation .other testEnv [97, 47, 98, 47] {} 2
      = some (.ok (some 3, some [98])) ∧
    path_basename [97, 47, 98, 47] = some [98, 47] ∧
    (some [98] : Option (List Nat)) ≠ some [98, 47] := by
  exact ⟨rfl, rfl, by decide⟩

/-- Helper: the walk loop reads only `IN_ROOT`, `ALLOW_PARENT_COMPONENTS`
and `NO_XDEV` from the lookup flags. -/
theorem walkLoop_flags_congr (os : OS) (env : Env) (lf1 lf2 : LookupFlags)
    (h1 : lf1.in_root = lf2.in_root)
    (h2 : lf1.allow_parent_components = lf2.allow_parent_components)
    (h3 : lf1.no_xdev = lf2.no_xdev) (mode rootdev nmax : Nat) :
    ∀ fuel queue curdir parents nfound fflags,
      walkLoop os env lf1 mode rootdev nmax fuel queue curdir parents nfound fflags
        = walkLoop os env lf2 mode rootdev nmax fuel queue curdir parents nfound fflags := by
  intro fuel
  induction fuel with
  | zero => intro q c ps nf ff; rfl
  | succ n ih =>
    intro q c ps nf ff
    cases q with
    | nil => rfl
    | cons fname rest =>
      simp only [walkLoop, h1, h2, h3]
      repeat' split
      all_goals first
        | rfl
        | apply ih

/-- Helper: the manual walk reads only the four resolution-relevant flags
(`NO_SYMLINKS` via the symlink limit, plus the three loop flags). -/
theorem manual_walk_flags_congr (os : OS) (env : Env) (lf1 lf2 : LookupFlags)
    (h0 : lf1.no_symlinks = lf2.no_symlinks) (h1 : lf1.in_root = lf2.in_root)
    (h2 : lf1.allow_parent_components = lf2.allow_parent_components)
    (h3 : lf1.no_xdev = lf2.no_xdev) (p : List Nat) (ff mode fuel : Nat) :
    manual_walk os env p lf1 ff mode fuel = manual_walk os env p lf2 ff mode fuel := by
  have hsl : symlink_limit env lf1 = symlink_limit env lf2 := by
    simp [symlink_limit, h0]
  simp only [manual_walk, h3, hsl]
  repeat' split
  all_goals first
    | rfl
    | apply walkLoop_flags_congr os env lf1 lf2 h1 h2 h3

/-- C10: for every oracle, path, mode, final flags and fuel, when `NO_XDEV`
is not set every modelled public operation behaves identically whether or
not `XDEV_BIND_OK` is set; and the manual walk loop never reads
`XDEV_BIND_OK` at all (even under `NO_XDEV`). -/
theorem C10_xdev_bind_ok_inert (os : OS) (env : Env) (s r a x b1 b2 : Bool)
    (path old v : List Nat) (ff mode fuel : Nat)
    (queue : List (List Nat)) (curdir : Option Nat) (parents : List (Option Nat))
    (nfound fflags rootdev nmax : Nat) :
    (walkLoop os env ⟨s, r, a, x, b1⟩ mode rootdev nmax fuel queue curdir parents
        nfound fflags
      = walkLoop os env ⟨s, r, a, x, b2⟩ mode rootdev nmax fuel queue curdir parents
          nfound fflags) ∧
    (open_file_secure os env path ⟨s, r, a, false, b1⟩ ff mode fuel
      = open_file_secure os env path ⟨s, r, a, false, b2⟩ ff mode fuel) ∧
    (prepare_inner_operation os env path ⟨s, r, a, false, b1⟩ fuel
      = prepare_inner_operation os env path ⟨s, r, a, false, b2⟩ fuel) ∧
    (sub_dir_secure os env path ⟨s, r, a, false, b1⟩ fuel
      = sub_dir_secure os env path ⟨s, r, a, false, b2⟩ fuel) ∧
    (open_file_secure_rdonly os env path ⟨s, r, a, false, b1⟩ fuel
      = open_file_secure_rdonly os env path ⟨s, r, a, false, b2⟩ fuel) ∧
    (new_file_secure os env path mode ⟨s, r, a, false, b1⟩ fuel
      = new_file_secure os env path mode ⟨s, r, a, false, b2⟩ fuel) ∧
    (update_file_secure os env path mode ⟨s, r, a, false, b1⟩ fuel
      = update_file_secure os env path mode ⟨s, r, a, false, b2⟩ fuel) ∧
    (write_file_secure os env path mode ⟨s, r, a, false, b1⟩ fuel
      = write_file_secure os env path mode ⟨s, r, a, false, b2⟩ fuel) ∧
    (append_file_secure os env path mode ⟨s, r, a, false, b1⟩ fuel
      = append_file_secure os env path mode ⟨s, r, a, false, b2⟩ fuel) ∧
    (create_dir_secure os env path mode ⟨s, r, a, false, b1⟩ fuel
      = create_dir_secure os env path mode ⟨s, r, a, false, b2⟩ fuel) ∧
    (remove_dir_secure os env path ⟨s, r, a, false, b1⟩ fuel
      = remove_dir_secure os env path ⟨s, r, a, false, b2⟩ fuel) ∧
    (remove_file_secure os env path ⟨s, r, a, false, b1⟩ fuel
      = remove_file_secure os env path ⟨s, r, a, false, b2⟩ fuel) ∧
    (read_link_secure os env path ⟨s, r, a, false, b1⟩ fuel
      = read_link_secure os env path ⟨s, r, a, false, b2⟩ fuel) ∧
    (symlink_secure os env path v ⟨s, r, a, false, b1⟩ fuel
      = symlink_secure os env path v ⟨s, r, a, false, b2⟩ fuel) ∧
    (local_rename_secure os env old path ⟨s, r, a, false, b1⟩ fuel
      = local_rename_secure os env old path ⟨s, r, a, false, b2⟩ fuel) := by
  have hofs : ∀ pth f m fl,
      open_file_secure os env pth ⟨s, r, a, false, b1⟩ f m fl
        = open_file_secure os env pth ⟨s, r, a, false, b2⟩ f m fl := by
    intro pth f m fl
    have hcrf : computeResolveFlags ⟨s, r, a, false, b1⟩
        = computeResolveFlags ⟨s, r, a, false, b2⟩ := rfl
    have hmw := manual_walk_flags_congr os env ⟨s, r, a, false, b1⟩ ⟨s, r, a, false, b2⟩
      rfl rfl rfl rfl pth f m fl
    dsimp only [open_file_secure]
    simp only [Bool.false_and, Bool.not_false, Bool.and_true]
    rw [hcrf, hmw]
  have hprep : ∀ pth fl,
      prepare_inner_operation os env pth ⟨s, r, a, false, b1⟩ fl
        = prepare_inner_operation os env pth ⟨s, r, a, false, b2⟩ fl := by
    intro pth fl
    simp only [prepare_inner_operation, prepare_tail, hofs]
  refine ⟨walkLoop_flags_congr os env ⟨s, r, a, x, b1⟩ ⟨s, r, a, x, b2⟩ rfl rfl rfl
      mode rootdev nmax fuel queue curdir parents nfound fflags,
    hofs path ff mode fuel, hprep path fuel, hofs path (BASE_DIR_FLAGS os) 0 fuel,
    hofs path O_RDONLY 0 fuel, hofs path (O_CREAT ||| O_EXCL ||| O_WRONLY) mode fuel,
    hofs path (O_CREAT ||| O_RDWR) mode fuel,
    hofs path (O_CREAT ||| O_WRONLY ||| O_TRUNC) mode fuel,
    hofs path (O_CREAT ||| O_WRONLY ||| O_APPEND) mode fuel,
    ?_, ?_, ?_, ?_, ?_, ?_⟩
  · simp only [create_dir_secure, hprep]
  · simp only [remove_dir_secure, hprep]
  · simp only [remove_file_secure, hprep]
  · simp only [read_link_secure, hprep]
  · simp only [symlink_secure, hprep]
  · simp only [local_rename_secure, hprep]

end OpenatSecure

